import Mathlib

/-!
# Verification of the Fraps frame-time analyser

A shallow embedding of `fraps_performance_analyser.py` (the single source
file of the repository) and proofs about it.

Modelling conventions:
* Python floats are modelled as exact rationals (`ℚ`).  All the arithmetic
  the analyser performs on them (`+`, `-`, `*`, `/`, `abs`, `max`, `min`,
  comparisons) is modelled by the corresponding exact operation on `ℚ`.
* `int(math.ceil(math.log(x, 2)))` is modelled by `Int.clog 2 : ℚ → ℤ`,
  which is exactly `⌈log₂ x⌉` for positive `x`
  (`Int.self_le_zpow_clog` / `Int.zpow_pred_clog_lt_self`).
* Python runtime exceptions that the analyser can raise are made explicit:
  a fallible computation returns `Except PyError _`.  A `.error` value
  corresponds to the exception propagating out of `analyze` (where the
  `__main__` wrapper catches it with a generic `except` clause and prints a
  generic message).
* File/CSV I/O is modelled by passing the list of rows (each row a list of
  cell strings) directly; writing the augmented output file happens last in
  the Python code, so an outcome other than `AnalyzeOutcome.completed`
  means no output artifact is produced.
-/

/-- The Python runtime exceptions reachable inside `analyze`:
`ZeroDivisionError` (lines 153/187/189/190), `IndexError` (out-of-range
list subscript, e.g. `contents[1]` or `SR_Verbal[rc]`), `AssertionError`
(line 173), `ValueError` (`int(...)`/`float(...)` on a non-numeric cell),
`TypeError` (arithmetic on a non-numeric row). -/
inductive PyError where
  | zeroDivision
  | indexError
  | assertionError
  | valueError
  | typeError
deriving DecidableEq, Repr

deriving instance DecidableEq for Except

/-- Range of accepted stutter margin values (source lines 20-21). -/
def Stutter_Margin_Min : ℚ := 0.10

/-- Range of accepted stutter margin values (source lines 20-21). -/
def Stutter_Margin_Max : ℚ := 10.1

/-- Version of the rating (source line 28). -/
def SR_Version : ℕ := 3

/-- Minimum percentage of frames producing stutter (source line 31). -/
def SR_Min : ℚ := 0.124

/-- Maximum percentage of frames producing stutter (source line 33). -/
def SR_Max : ℚ := 100.1

/-- Verbal rating for percentage of smooth frames (source lines 36-47). -/
def SR_Verbal : List String :=
  ["Practically Impossible", "Perfect", "Excellent", "Very Good", "Good",
   "Average", "Below Average", "Mediocre", "Atrocious", "Abysmal"]

/-- Source `clamp` (lines 73-76): clamps the value between `min_value` and
`max_value`. -/
def clamp {α : Type} [LinearOrder α] (value min_value max_value : α) : α :=
  max (min value max_value) min_value

/-- Source `binary_select1` (lines 80-84): select on `expr` between `true_`
and `false_`. -/
def binary_select1 {α : Type} (expr : Prop) [Decidable expr]
    (true_ false_ : α) : α :=
  if expr then true_ else false_

/-- Source `moving_average` (lines 89-93): recomputes a new average
including a new inserted sample.  `n : ℕ` so the `assert n >= 0` always
holds. -/
def moving_average (avg : ℚ) (x : ℚ) (n : ℕ) : ℚ :=
  (x + n * avg) / (n + 1)

/-- The sentinel `fps_large_const` (source line 139). -/
def fps_large_const : ℚ := 90000

/-- The five columns appended to a data row by the analysis loop
(source lines 179-183). `visible_stutter` is the 0/1 value of line 158. -/
structure FrameRec where
  frame_time : ℚ
  frame_rate : ℚ
  frame_delta : ℚ
  extra_time : ℚ
  visible_stutter : ℕ
deriving DecidableEq, Repr

/-- The running accumulators of `analyze` (source lines 136-143). -/
structure St where
  stutter_samples : ℕ
  smooth_samples : ℕ
  extra_total_time : ℚ
  fps_min : ℚ
  fps_avg : ℚ
  fps_avg_smooth : ℚ
  fps_max : ℚ
deriving DecidableEq, Repr

/-- Initial accumulator values (source lines 136-143). -/
def init_st : St :=
  { stutter_samples := 0, smooth_samples := 0, extra_total_time := 0,
    fps_min := fps_large_const, fps_avg := 0, fps_avg_smooth := 0,
    fps_max := 0 }

/-- One iteration of the analysis loop (source lines 146-183) for the pair
(`prev`, `curr`).  `prev_frame_time` is `prev[2]`, the frame-time column
already appended to the previous row (0 for the first iteration, from
lines 131-133).  `sample_n` is `i - 2`.  Errors: `1000 / frame_time`
raises `ZeroDivisionError` when `frame_time == 0`; the
`assert frame_rate < fps_large_const` (line 173) raises `AssertionError`
(the sample-counting `if` block at lines 163-170 runs before the assert,
but its effects are discarded when the exception aborts the run). -/
def step (margin : ℚ) (s : St) (prev_ts curr_ts prev_frame_time : ℚ)
    (sample_n : ℕ) : Except PyError (St × FrameRec) :=
  if curr_ts - prev_ts = 0 then .error .zeroDivision
  else
    let frame_time := curr_ts - prev_ts
    let frame_rate := 1000 / frame_time
    let frame_delta := frame_time - prev_frame_time
    let extra_time_val := |frame_delta| - margin
    let extra_time := binary_select1 (extra_time_val > 0) extra_time_val 0
    let visible_stutter : ℕ := binary_select1 (extra_time_val > 0) 1 0
    let s1 :=
      if visible_stutter = 1 then
        { s with stutter_samples := s.stutter_samples + 1,
                 extra_total_time := s.extra_total_time + extra_time_val,
                 fps_avg_smooth := moving_average s.fps_avg_smooth 0 sample_n }
      else
        { s with smooth_samples := s.smooth_samples + 1,
                 fps_avg_smooth :=
                   moving_average s.fps_avg_smooth frame_rate sample_n }
    if fps_large_const ≤ frame_rate then .error .assertionError
    else
      .ok ({ s1 with fps_max := max frame_rate s1.fps_max,
                     fps_min := min frame_rate s1.fps_min,
                     fps_avg := moving_average s1.fps_avg frame_rate sample_n },
           { frame_time := frame_time, frame_rate := frame_rate,
             frame_delta := frame_delta, extra_time := extra_time,
             visible_stutter := visible_stutter })

/-- The analysis loop (source lines 146-183), walking the remaining samples
after the first one.  Carries the previous timestamp, the previous row's
appended frame time, and the zero-based derived-record index `sample_n`.
Returns the final accumulator state and the list of appended columns, one
`FrameRec` per consecutive pair. -/
def loop (margin : ℚ) (prev_ts prev_frame_time : ℚ) (sample_n : ℕ) (s : St) :
    List (ℤ × ℚ) → Except PyError (St × List FrameRec)
  | [] => .ok (s, [])
  | (_, ts) :: rest =>
    match step margin s prev_ts ts prev_frame_time sample_n with
    | .error e => .error e
    | .ok (s1, r) =>
      match loop margin ts r.frame_time (sample_n + 1) s1 rest with
      | .error e => .error e
      | .ok (sf, recs) => .ok (sf, r :: recs)

/-- The pass of `analyze` over the parsed data rows (source lines 131-183):
zero-filling of the first data row's new columns (line 131-133, which
raises `IndexError` when there is no data row at all), then the loop.
`samples` are the parsed `(frame index, timestamp)` data rows. -/
def analyze_pass (samples : List (ℤ × ℚ)) (margin : ℚ) :
    Except PyError (St × List FrameRec) :=
  match samples with
  | [] => .error .indexError
  | (_, ts0) :: rest => loop margin ts0 0 0 init_st rest

/-- The rank `rc` of the smoothness rating (source line 216):
`clamp(int(math.ceil(math.log(ovc, 2))) + 3, 0, rmax)` with
`ovc = clamp(overall_stutter, SR_Min, SR_Max)` (line 214) and
`rmax = len(SR_Verbal)` (line 215).  `Int.clog 2 q = ⌈log₂ q⌉` models the
`int(math.ceil(math.log(·, 2)))` composite exactly. -/
def rating_rc (overall_stutter : ℚ) : ℤ :=
  clamp (Int.clog 2 (clamp overall_stutter SR_Min SR_Max) + 3) 0
    (SR_Verbal.length : ℤ)

/-- The summary values printed after the pass (source lines 186-218),
in source order, with every Python exception made explicit:
`ZeroDivisionError` at lines 187-188 (`total_samples == 0`), line 189
(`contents[-1][1] == 0`) and line 190 (`fps_avg == 0`), and `IndexError`
at line 218 when `rc` is not a valid index of `SR_Verbal`. -/
structure Summary where
  total_samples : ℕ
  overall_smoothness : ℚ
  overall_stutter : ℚ
  overall_extra_time : ℚ
  overall_fps_avg_diff_ns : ℚ
  rating_label : String
  rating_score : ℤ
  rating_max : ℤ
deriving DecidableEq, Repr

/-- Computes the summary block (source lines 186-218) from the final
accumulator state and `last_ts = contents[-1][1]`. -/
def mk_summary (last_ts : ℚ) (s : St) : Except PyError Summary :=
  let total_samples := s.stutter_samples + s.smooth_samples
  if total_samples = 0 then .error .zeroDivision
  else
    let overall_smoothness := (s.smooth_samples : ℚ) * 100 / total_samples
    let overall_stutter := (s.stutter_samples : ℚ) * 100 / total_samples
    if last_ts = 0 then .error .zeroDivision
    else
      let overall_extra_time := s.extra_total_time * 100 / last_ts
      if s.fps_avg = 0 then .error .zeroDivision
      else
        let overall_fps_avg_diff_ns := (s.fps_avg_smooth / s.fps_avg - 1) * 100
        let rc := rating_rc overall_stutter
        match SR_Verbal.get? rc.toNat with
        | none => .error .indexError
        | some label =>
          .ok { total_samples := total_samples,
                overall_smoothness := overall_smoothness,
                overall_stutter := overall_stutter,
                overall_extra_time := overall_extra_time,
                overall_fps_avg_diff_ns := overall_fps_avg_diff_ns,
                rating_label := label,
                rating_score := (SR_Verbal.length : ℤ) - rc,
                rating_max := (SR_Verbal.length : ℤ) }

/-- Function `analyze` from the parsed data rows on: pass (lines 131-183) followed
by the summary (lines 186-218). -/
def analyze_samples (samples : List (ℤ × ℚ)) (margin : ℚ) :
    Except PyError (List FrameRec × Summary) :=
  match analyze_pass samples margin with
  | .error e => .error e
  | .ok (s, recs) =>
    match mk_summary (samples.getLastD (0, 0)).2 s with
    | .error e => .error e
    | .ok sum => .ok (recs, sum)

/-- The value the stutter-discounted average folds in for a record:
`0.0` for a stutter frame, the real frame rate otherwise
(source lines 163-170). -/
def smooth_val (r : FrameRec) : ℚ :=
  binary_select1 (r.visible_stutter = 1) 0 r.frame_rate

/-- The left-to-right fold of `moving_average` over a list of values,
starting from accumulator `avg` at zero-based index `n`: the shape in
which `analyze` maintains `fps_avg` and `fps_avg_smooth`. -/
def fps_avg_fold (avg : ℚ) (n : ℕ) : List ℚ → ℚ
  | [] => avg
  | x :: xs => fps_avg_fold (moving_average avg x n) (n + 1) xs

/-- Inversion of a successful loop iteration: everything line 146-183
guarantees about the produced record and the accumulator update. -/
theorem step_ok {margin : ℚ} {s : St} {pts ts pft : ℚ} {n : ℕ} {s1 : St}
    {r : FrameRec} (h : step margin s pts ts pft n = .ok (s1, r)) :
    ts - pts ≠ 0 ∧
    1000 / (ts - pts) < fps_large_const ∧
    r.frame_time = ts - pts ∧
    r.frame_rate = 1000 / (ts - pts) ∧
    r.frame_delta = ts - pts - pft ∧
    r.extra_time =
      (if |r.frame_delta| - margin > 0 then |r.frame_delta| - margin else 0) ∧
    r.visible_stutter = (if |r.frame_delta| - margin > 0 then 1 else 0) ∧
    s1.fps_avg = moving_average s.fps_avg r.frame_rate n ∧
    s1.fps_avg_smooth = moving_average s.fps_avg_smooth (smooth_val r) n ∧
    s1.smooth_samples + s1.stutter_samples =
      s.smooth_samples + s.stutter_samples + 1 := by
  by_cases h0 : ts - pts = 0
  · simp [step, h0] at h
  by_cases ha : fps_large_const ≤ 1000 / (ts - pts)
  · by_cases hst : |ts - pts - pft| - margin > 0 <;>
      simp [step, h0, ha, binary_select1, hst] at h
  by_cases hst : |ts - pts - pft| - margin > 0
  · simp only [step, binary_select1, if_neg h0, if_neg ha, if_pos hst,
      ite_self, if_pos rfl, Except.ok.injEq, Prod.mk.injEq] at h
    obtain ⟨hA, hB⟩ := h
    subst hA hB
    refine ⟨h0, not_le.mp ha, rfl, rfl, rfl, ?_, ?_, ?_, ?_, ?_⟩ <;>
      simp [smooth_val, binary_select1, hst]; omega
  · simp only [step, binary_select1, if_neg h0, if_neg ha, if_neg hst,
      Except.ok.injEq, Prod.mk.injEq] at h
    obtain ⟨hA, hB⟩ := h
    subst hA hB
    refine ⟨h0, not_le.mp ha, rfl, rfl, rfl, ?_, ?_, ?_, ?_, ?_⟩ <;>
      simp [smooth_val, binary_select1, hst]; omega

/-- Master invariant of the analysis loop: lengths, sample counts, both
running averages as `moving_average` folds, and the per-record
stutter-classification facts. -/
theorem loop_ok {margin : ℚ} (l : List (ℤ × ℚ)) :
    ∀ (pts pft : ℚ) (n : ℕ) (s sf : St) (recs : List FrameRec),
      loop margin pts pft n s l = .ok (sf, recs) →
      recs.length = l.length ∧
      sf.smooth_samples + sf.stutter_samples =
        s.smooth_samples + s.stutter_samples + recs.length ∧
      sf.fps_avg = fps_avg_fold s.fps_avg n (recs.map FrameRec.frame_rate) ∧
      sf.fps_avg_smooth = fps_avg_fold s.fps_avg_smooth n (recs.map smooth_val) ∧
      ∀ r ∈ recs, r.extra_time = max 0 (|r.frame_delta| - margin) ∧
        (r.visible_stutter = 1 ↔ 0 < r.extra_time) := by
  induction l with
  | nil =>
    intro pts pft n s sf recs h
    simp only [loop, Except.ok.injEq, Prod.mk.injEq] at h
    obtain ⟨h1, h2⟩ := h
    subst h1 h2
    simp [fps_avg_fold]
  | cons hd tl ih =>
    intro pts pft n s sf recs h
    obtain ⟨i, ts⟩ := hd
    rw [loop] at h
    split at h
    next e hs => exact absurd h (by simp)
    next s1 r hs =>
      split at h
      next e hl => exact absurd h (by simp)
      next sf' recs' hl =>
        simp only [Except.ok.injEq, Prod.mk.injEq] at h
        obtain ⟨h1, h2⟩ := h
        subst h1 h2
        obtain ⟨IH1, IH2, IH3, IH4, IH5⟩ := ih _ _ _ _ _ _ hl
        obtain ⟨-, -, -, -, -, hext, hvis, havg, hsmooth, hcnt⟩ := step_ok hs
        refine ⟨by simp [IH1], by simp only [List.length_cons]; omega, ?_, ?_, ?_⟩
        · simp only [List.map_cons, fps_avg_fold, IH3, havg]
        · simp only [List.map_cons, fps_avg_fold, IH4, hsmooth]
        · intro r' hr'
          rcases List.mem_cons.mp hr' with hr' | hr'
          · subst hr'
            constructor
            · rw [hext]
              by_cases hc : |r'.frame_delta| - margin > 0
              · simp [hc, max_eq_right hc.le]
              · simp [hc, max_eq_left (not_lt.mp hc)]
            · rw [hext, hvis]
              by_cases hc : |r'.frame_delta| - margin > 0 <;> simp [hc]
          · exact IH5 r' hr'

/-- The `moving_average` fold over a nonempty list is the batch mean,
generalized to a running start: starting from accumulator `avg` at index
`n`, the fold computes the mean of the list extended by `n` virtual
samples of total weight `n * avg`. -/
theorem fps_avg_fold_sum :
    ∀ (xs : List ℚ) (x avg : ℚ) (n : ℕ),
      fps_avg_fold avg n (x :: xs) =
        ((n : ℚ) * avg + x + xs.sum) / ((n : ℚ) + 1 + xs.length)
  | [], x, avg, n => by
    simp [fps_avg_fold, moving_average]
    ring_nf
  | y :: xs, x, avg, n => by
    rw [show fps_avg_fold avg n (x :: y :: xs) =
          fps_avg_fold (moving_average avg x n) (n + 1) (y :: xs) from rfl,
        fps_avg_fold_sum xs y (moving_average avg x n) (n + 1),
        moving_average]
    have hne : ((n : ℚ) + 1) ≠ 0 := by positivity
    have hd1 : (0 : ℚ) < (n : ℚ) + 1 + 1 + (xs.length : ℚ) := by positivity
    have hd2 : (0 : ℚ) < (n : ℚ) + 1 + ((y :: xs).length : ℚ) := by positivity
    rw [div_eq_div_iff (by positivity) (by positivity)]
    field_simp
    ring

/-- Tests whether `needle` occurs at the head of `hay`. -/
def chars_match : List Char → List Char → Bool
  | [], _ => true
  | _ :: _, [] => false
  | n :: ns, h :: hs => n = h && chars_match ns hs

/-- Tests whether `needle` occurs somewhere in `hay`. -/
def substr_at (needle : List Char) : List Char → Bool
  | [] => chars_match needle []
  | h :: hs => chars_match needle (h :: hs) || substr_at needle hs

/-- Python's substring operator `needle in hay` on strings. -/
def str_contains (hay needle : String) : Bool :=
  substr_at needle.data hay.data

/-- Python's `e_.replace(' ', '')`: remove every space character. -/
def strip_spaces (e : String) : String :=
  ⟨e.data.filter (fun c => c ≠ ' ')⟩

/-- Cell preprocessing of the reader loop (source line 112): a cell
containing the character `m` is kept verbatim, any other cell has its
spaces removed before numeric parsing. -/
def process_cell (e : String) : String :=
  binary_select1 ('m' ∈ e.data) e (strip_spaces e)

/-- Value of a decimal digit character, `none` otherwise. -/
def digit_val (c : Char) : Option ℕ :=
  if c.isDigit then some (c.toNat - 48) else none

/-- Parse a nonempty all-digit character list into a natural number. -/
def parse_digits : List Char → ℕ → Option ℕ
  | [], acc => some acc
  | c :: rest, acc =>
    match digit_val c with
    | some d => parse_digits rest (10 * acc + d)
    | none => none

/-- Python's `int(...)` on the plain (optionally `-`-signed) decimal
integer literals this tool feeds it; any other string raises
`ValueError`, modelled as `none`. -/
def parse_int (s : String) : Option ℤ :=
  match s.data with
  | [] => none
  | '-' :: rest => if rest = [] then none else (parse_digits rest 0).map (fun n => -(n : ℤ))
  | cs => (parse_digits cs 0).map (fun n => (n : ℤ))

/-- Split a character list at the first `.`: integer part and, when a dot
is present, the fractional part. -/
def split_dot : List Char → List Char × Option (List Char)
  | [] => ([], none)
  | '.' :: rest => ([], some rest)
  | c :: rest =>
    let p := split_dot rest
    (c :: p.1, p.2)

/-- Python's `float(...)` on the plain decimal literals this tool feeds
it (`123`, `16.67`, `-0.5`); any other string raises `ValueError`,
modelled as `none`. -/
def parse_float (s : String) : Option ℚ :=
  let signed : Bool × List Char :=
    match s.data with
    | '-' :: rest => (true, rest)
    | cs => (false, cs)
  let p := split_dot signed.2
  match p.2 with
  | none =>
    if p.1 = [] then none
    else (parse_digits p.1 0).map
      (fun n => if signed.1 then -(n : ℚ) else (n : ℚ))
  | some fs =>
    if p.1 = [] ∧ fs = [] then none
    else
      match parse_digits p.1 0, parse_digits fs 0 with
      | some a, some b =>
        let v : ℚ := a + (b : ℚ) / 10 ^ fs.length
        some (if signed.1 then -v else v)
      | _, _ => none

/-- A parsed row of `contents` (source lines 109-117): either a header-ish
row kept as strings (its first cell contains `Frame`) or a parsed
`[int, float]` data row. -/
inductive Row where
  | header (cells : List String)
  | data (idx : ℤ) (ts : ℚ)
deriving DecidableEq, Repr

/-- Reading one CSV row (source lines 109-117): preprocess every cell
(line 112); if the first cell does not contain `Frame`, parse cells 0 and
1 as `int` and `float` (`ValueError` on failure, `IndexError` when the
row has fewer than 2 cells); otherwise keep the row as strings.
An empty row raises `IndexError` at `irow[0]`. -/
def read_row (row : List String) : Except PyError Row :=
  let irow := row.map process_cell
  match irow with
  | [] => .error .indexError
  | c0 :: rest =>
    if str_contains c0 "Frame" = false then
      match parse_int c0 with
      | none => .error .valueError
      | some n =>
        match rest with
        | [] => .error .indexError
        | c1 :: _ =>
          match parse_float c1 with
          | none => .error .valueError
          | some q => .ok (.data n q)
    else .ok (.header irow)

/-- The reader loop (source lines 109-117): parse every row, stopping at
the first raised exception.  The whole loop runs before the header test
(line 120). -/
def read_rows : List (List String) → Except PyError (List Row)
  | [] => .ok []
  | row :: rest =>
    match read_row row with
    | .error e => .error e
    | .ok r =>
      match read_rows rest with
      | .error e => .error e
      | .ok rs => .ok (r :: rs)

/-- The header test (source line 120):
`contents[0][0] != 'Frame' or contents[0][1] != ' Time (ms)'`, with
Python's short-circuit `or` (so `contents[0][1]` and its possible
`IndexError` are only reached when the first cell equals `Frame`).
A numeric first row compares an `int` against `'Frame'` with `!=`, which
is `True` in Python: header mismatch, no exception.
Returns `true` when the headers are as expected. -/
def header_check : Row → Except PyError Bool
  | .data _ _ => .ok false
  | .header cells =>
    match cells with
    | [] => .error .indexError
    | c0 :: rest =>
      if c0 ≠ "Frame" then .ok false
      else
        match rest with
        | [] => .error .indexError
        | c1 :: _ => .ok (c1 = " Time (ms)")

/-- The analysis loop does arithmetic on `prev[1]`/`curr[1]`; if a row
after the header parsed as strings (its first cell contains `Frame`),
Python raises `TypeError` on the string arithmetic.  We surface that
conversion up front: the loop itself only ever sees numeric rows. -/
def as_data : List Row → Except PyError (List (ℤ × ℚ))
  | [] => .ok []
  | .header _ :: _ => .error .typeError
  | .data i t :: rest =>
    match as_data rest with
    | .error e => .error e
    | .ok l => .ok ((i, t) :: l)

/-- Outcome of one `analyze` run on an input file.  `headerError` is the
early return of lines 120-122 (the message `ERROR: Unexpected headers!`
is printed and `analyze` returns); the augmented output file (lines
220-224) is written only in the `completed` case, which is the last thing
`analyze` does. -/
inductive AnalyzeOutcome where
  | headerError
  | completed (recs : List FrameRec) (sum : Summary)
deriving DecidableEq, Repr

/-- Full `analyze` (source lines 101-226) on the rows of the input file:
read and convert all rows, test the header, run the pass and the summary.
Any `.error e` is a Python exception propagating out of `analyze` (no
report, no output file); `.ok .headerError` is the graceful early return;
`.ok (.completed ..)` is a completed run (report printed, output file
written). -/
def analyze_file (rows : List (List String)) (margin : ℚ) :
    Except PyError AnalyzeOutcome :=
  match read_rows rows with
  | .error e => .error e
  | .ok [] => .error .indexError
  | .ok (first :: rest) =>
    match header_check first with
    | .error e => .error e
    | .ok false => .ok .headerError
    | .ok true =>
      match rest with
      | [] => .error .indexError
      | _ :: _ =>
        match as_data rest with
        | .error e => .error e
        | .ok samples =>
          match analyze_samples samples margin with
          | .error e => .error e
          | .ok (recs, sum) => .ok (.completed recs sum)

/-- With strictly increasing timestamps ahead of it, every record the loop
produces has a positive frame rate. -/
theorem loop_pos {margin : ℚ} (l : List (ℤ × ℚ)) :
    ∀ (pts pft : ℚ) (n : ℕ) (s sf : St) (recs : List FrameRec),
      List.Chain' (· < ·) (pts :: l.map Prod.snd) →
      loop margin pts pft n s l = .ok (sf, recs) →
      ∀ r ∈ recs, 0 < r.frame_rate := by
  induction l with
  | nil =>
    intro pts pft n s sf recs hch h
    simp only [loop, Except.ok.injEq, Prod.mk.injEq] at h
    obtain ⟨h1, h2⟩ := h
    subst h1 h2
    simp
  | cons hd tl ih =>
    intro pts pft n s sf recs hch h
    obtain ⟨i, ts⟩ := hd
    rw [loop] at h
    split at h
    next e hs => exact absurd h (by simp)
    next s1 r hs =>
      split at h
      next e hl => exact absurd h (by simp)
      next sf' recs' hl =>
        simp only [Except.ok.injEq, Prod.mk.injEq] at h
        obtain ⟨h1, h2⟩ := h
        subst h1 h2
        simp only [List.map_cons, List.chain'_cons] at hch
        obtain ⟨hlt, hch2⟩ := hch
        obtain ⟨-, -, -, hrate, -, -, -, -, -, -⟩ := step_ok hs
        intro r2 hr2
        rcases List.mem_cons.mp hr2 with hr2 | hr2
        · subst hr2
          rw [hrate]
          exact div_pos (by norm_num) (sub_pos.mpr hlt)
        · exact ih ts r.frame_time (n + 1) s1 sf' recs' hch2 hl r2 hr2

/-- Value `⌈log₂ 100⌉ = 7`, via the Galois connection between `Int.clog`
and `zpow`. -/
theorem clog_two_100 : Int.clog 2 (100 : ℚ) = 7 := by
  have hb : (1 : ℕ) < 2 := by norm_num
  have hr : (0 : ℚ) < 100 := by norm_num
  have h1 : Int.clog 2 (100 : ℚ) ≤ 7 := by
    rw [← Int.le_zpow_iff_clog_le hb hr]
    norm_num
  have h2 : (6 : ℤ) < Int.clog 2 (100 : ℚ) := by
    rw [← Int.zpow_lt_iff_lt_clog hb hr]
    norm_num
  omega

/-- At 100% overall stutter the code computes rank 10 — one past the last
valid index of the 10-element `SR_Verbal` table. -/
theorem rating_rc_100 : rating_rc 100 = 10 := by
  have hcl : clamp (100 : ℚ) SR_Min SR_Max = 100 := by
    norm_num [clamp, SR_Min, SR_Max, min_def, max_def]
  rw [rating_rc, hcl, clog_two_100]
  norm_num [clamp, SR_Verbal, min_def, max_def]

/-- C3: for every derived frame record produced by the analysis pass,
`extra_time` equals `max(0, |frame_delta| - stutter_margin)` and the
stutter flag is set exactly when `extra_time > 0`. -/
theorem extra_time_and_stutter_flag_spec
    (samples : List (ℤ × ℚ)) (margin : ℚ) (s : St) (recs : List FrameRec)
    (h : analyze_pass samples margin = .ok (s, recs)) :
    ∀ r ∈ recs, r.extra_time = max 0 (|r.frame_delta| - margin) ∧
      (r.visible_stutter = 1 ↔ 0 < r.extra_time) := by
  cases samples with
  | nil => simp [analyze_pass] at h
  | cons hd rest =>
    obtain ⟨i, ts0⟩ := hd
    simp only [analyze_pass] at h
    exact (loop_ok rest ts0 0 0 init_st s recs h).2.2.2.2

/-- Witness for C3 on the trace `[(0,0),(1,10)]` with margin 2. -/
theorem extra_time_and_stutter_flag_spec_witness :
    (⟨10, 100, 10, 8, 1⟩ : FrameRec).extra_time =
        max 0 (|(⟨10, 100, 10, 8, 1⟩ : FrameRec).frame_delta| - 2) ∧
      ((⟨10, 100, 10, 8, 1⟩ : FrameRec).visible_stutter = 1 ↔
        0 < (⟨10, 100, 10, 8, 1⟩ : FrameRec).extra_time) :=
  extra_time_and_stutter_flag_spec [(0, 0), (1, 10)] 2
    ⟨1, 0, 8, 100, 100, 0, 100⟩ [⟨10, 100, 10, 8, 1⟩]
    (by norm_num [analyze_pass, loop, step, moving_average, binary_select1,
      init_st, fps_large_const, abs, max_def, min_def])
    ⟨10, 100, 10, 8, 1⟩ (List.mem_singleton.mpr rfl)

/-- C4: the incremental-mean fold is the batch mean — for every sequence
of frame rates and every `n`, folding the first `n + 1` rates through
`moving_average` (zero-based index `n`) from the initial accumulator
yields their arithmetic mean. -/
theorem incremental_mean_is_batch_mean
    (rates : List ℚ) (n : ℕ) (h : n < rates.length) :
    fps_avg_fold 0 0 (rates.take (n + 1)) =
      (rates.take (n + 1)).sum / ((n : ℚ) + 1) := by
  cases rates with
  | nil => simp at h
  | cons x xs =>
    have hn : n ≤ xs.length := by
      simpa [Nat.lt_succ_iff] using h
    rw [List.take_succ_cons, fps_avg_fold_sum]
    have hlen : (xs.take n).length = n := by
      simp [List.length_take, min_eq_left hn]
    rw [hlen]
    simp only [List.sum_cons]
    push_cast
    ring

/-- Witness for C4 at rates `[10, 20, 30]` and `n = 1`. -/
theorem incremental_mean_is_batch_mean_witness :
    1 < ([10, 20, 30] : List ℚ).length ∧
      fps_avg_fold 0 0 (([10, 20, 30] : List ℚ).take (1 + 1)) =
        (([10, 20, 30] : List ℚ).take (1 + 1)).sum / (((1 : ℕ) : ℚ) + 1) :=
  ⟨by decide, incremental_mean_is_batch_mean [10, 20, 30] 1 (by decide)⟩

/-- C5: on a valid input (at least two samples, strictly increasing
timestamps) whose pass completes, `smooth_samples + stutter_samples`
equals the number of derived records, which is the sample count minus
one. -/
theorem counts_partition_derived_records
    (samples : List (ℤ × ℚ)) (margin : ℚ) (s : St) (recs : List FrameRec)
    (h2 : 2 ≤ samples.length)
    (hmono : List.Chain' (fun a b => a.2 < b.2) samples)
    (hok : analyze_pass samples margin = .ok (s, recs)) :
    s.smooth_samples + s.stutter_samples = recs.length ∧
      recs.length = samples.length - 1 := by
  cases samples with
  | nil => simp [analyze_pass] at hok
  | cons hd rest =>
    obtain ⟨i, ts0⟩ := hd
    simp only [analyze_pass] at hok
    obtain ⟨L1, L2, -, -, -⟩ := loop_ok rest ts0 0 0 init_st s recs hok
    refine ⟨?_, by simp [L1]⟩
    simpa [init_st] using L2

/-- Witness for C5 on the trace `[(0,0),(1,10),(2,25)]` with margin 2. -/
theorem counts_partition_derived_records_witness :
    2 ≤ ([((0 : ℤ), (0 : ℚ)), (1, 10), (2, 25)]).length ∧
      (0 : ℚ) < 10 ∧ (10 : ℚ) < 25 ∧
      ((⟨2, 0, 11, 200/3, 250/3, 0, 100⟩ : St).smooth_samples +
          (⟨2, 0, 11, 200/3, 250/3, 0, 100⟩ : St).stutter_samples =
          ([⟨10, 100, 10, 8, 1⟩, ⟨15, 200/3, 5, 3, 1⟩] : List FrameRec).length ∧
        ([⟨10, 100, 10, 8, 1⟩, ⟨15, 200/3, 5, 3, 1⟩] : List FrameRec).length =
          ([((0 : ℤ), (0 : ℚ)), (1, 10), (2, 25)]).length - 1) :=
  ⟨by decide, by norm_num, by norm_num,
    counts_partition_derived_records [(0, 0), (1, 10), (2, 25)] 2
      ⟨2, 0, 11, 200/3, 250/3, 0, 100⟩ [⟨10, 100, 10, 8, 1⟩, ⟨15, 200/3, 5, 3, 1⟩]
      (by decide) (by norm_num [List.chain'_cons])
      (by norm_num [analyze_pass, loop, step, moving_average, binary_select1,
        init_st, fps_large_const, abs, max_def, min_def])⟩

/-- C6: the rating rank is monotone non-decreasing in the overall stutter
percentage: a strictly higher stutter percentage never gets a strictly
smaller rank (hence never a better score). -/
theorem rating_rank_monotone (p1 p2 : ℚ) (h : p1 < p2) :
    rating_rc p1 ≤ rating_rc p2 := by
  unfold rating_rc
  unfold clamp
  have hmin : min p1 SR_Max ≤ min p2 SR_Max := min_le_min h.le le_rfl
  have hcl : max (min p1 SR_Max) SR_Min ≤ max (min p2 SR_Max) SR_Min :=
    max_le_max hmin le_rfl
  have hpos : (0 : ℚ) < max (min p1 SR_Max) SR_Min :=
    lt_of_lt_of_le (by norm_num [SR_Min]) (le_max_right _ _)
  have hclog := Int.clog_mono_right (b := 2) hpos hcl
  exact max_le_max (min_le_min (by omega) le_rfl) le_rfl

/-- Witness for C6 at stutter percentages 1 and 2. -/
theorem rating_rank_monotone_witness :
    (1 : ℚ) < 2 ∧ rating_rc 1 ≤ rating_rc 2 :=
  ⟨by norm_num, rating_rank_monotone 1 2 (by norm_num)⟩

/-- A record with a positive frame rate contributes at most its frame
rate to the smoothed average. -/
theorem smooth_val_le {r : FrameRec} (h : 0 < r.frame_rate) :
    smooth_val r ≤ r.frame_rate := by
  unfold smooth_val binary_select1
  split
  · exact h.le
  · exact le_rfl

/-- C1 evidence: the pass on the all-stutter trace
`[(0,0),(1,10),(2,30),(3,70)]` with margin 2. -/
theorem pass_full_stutter_eq :
    analyze_pass [(0, 0), (1, 10), (2, 30), (3, 70)] 2 =
      .ok (⟨3, 0, 34, 25, 175/3, 0, 100⟩,
        [⟨10, 100, 10, 8, 1⟩, ⟨20, 50, 10, 8, 1⟩, ⟨40, 25, 20, 18, 1⟩]) := by
  norm_num [analyze_pass, loop, step, moving_average, binary_select1, init_st,
    fps_large_const, abs, max_def, min_def]

/-- C1 evidence: the summary computation on that final state hits
`SR_Verbal[10]` and raises `IndexError`. -/
theorem mk_summary_full_stutter :
    mk_summary 70 ⟨3, 0, 34, 25, 175/3, 0, 100⟩ = .error .indexError := by
  unfold mk_summary
  norm_num [rating_rc_100, SR_Verbal]
  decide

/-- C1: on a 100%-stutter trace the rating derivation computes
`rc = clamp(ceil(log2(100)) + 3, 0, len(SR_Verbal)) = 10` — one past the
last valid index of the 10-element `SR_Verbal` list — so `SR_Verbal[rc]`
raises `IndexError` and the run crashes instead of producing a rating:
the claimed clamp bound `len(SR_Verbal) - 1` is not what the code does,
and the computed rank is not always a valid index. -/
theorem rating_rank_overflow_at_full_stutter :
    analyze_samples [(0, 0), (1, 10), (2, 30), (3, 70)] 2 = .error .indexError ∧
      rating_rc 100 = (SR_Verbal.length : ℤ) ∧
      SR_Verbal.get? (rating_rc 100).toNat = none := by
  refine ⟨?_, by rw [rating_rc_100]; decide, by rw [rating_rc_100]; decide⟩
  have hlast :
      (([(0, 0), (1, 10), (2, 30), (3, 70)] : List (ℤ × ℚ)).getLastD (0, 0)).2 =
        70 := rfl
  simp only [analyze_samples, pass_full_stutter_eq, hlast,
    mk_summary_full_stutter]

/-- C2: two consecutive identical timestamps make `frame_time = 0`, and
the code raises a plain `ZeroDivisionError` from `1000 / frame_time`
(caught only by the generic top-level handler) — not a distinct
non-monotonic-timestamp error naming the offending row. -/
theorem identical_timestamps_raise_zero_division :
    analyze_pass [(0, 0), (1, 5), (2, 5)] 2 = .error .zeroDivision := by
  norm_num [analyze_pass, loop, step, moving_average, binary_select1, init_st,
    fps_large_const, abs, max_def, min_def]

/-- C7 evidence: the pass on the spec scenario input
`[(0,0),(1,16.67),(2,33.33),(3,66.67)]` with margin 2. -/
theorem pass_scenario_eq :
    analyze_pass [(0, 0), (1, 16.67), (2, 33.33), (3, 66.67)] 2 =
      .ok (⟨2, 1, 587/20, 50000/1667, 208300000/4165833, 50000/2499, 50000/833⟩,
        [⟨16.67, 100000/1667, 16.67, 14.67, 1⟩,
         ⟨16.66, 50000/833, -0.01, 0, 0⟩,
         ⟨33.34, 50000/1667, 16.68, 14.68, 1⟩]) := by
  norm_num [analyze_pass, loop, step, moving_average, binary_select1, init_st,
    fps_large_const, abs, max_def, min_def]

/-- C7 counterexample: on the scenario input the produced frame times are
not `[16.67, 16.67, 33.34]` (the second is `33.33 - 16.67 = 16.66`), and
the stutter flags are not `[0, 0, 1]` (the first record compares against
the zero baseline, so its delta is `16.67` and it is flagged). -/
theorem scenario_values_counterexample :
    (analyze_pass [(0, 0), (1, 16.67), (2, 33.33), (3, 66.67)] 2).toOption.map
        (fun p => p.2.map FrameRec.frame_time) ≠ some [16.67, 16.67, 33.34] ∧
      (analyze_pass [(0, 0), (1, 16.67), (2, 33.33), (3, 66.67)] 2).toOption.map
        (fun p => p.2.map FrameRec.visible_stutter) ≠ some [0, 0, 1] := by
  rw [pass_scenario_eq]
  constructor
  · norm_num [Except.toOption]
  · norm_num [Except.toOption]

/-- C7 amended: the true values on the scenario input — frame times
`[16.67, 16.66, 33.34]`; record 1 has delta `16.67`, deviation `14.67`,
stutter; record 2 has delta `-0.01`, smooth; record 3 has delta `16.68`,
deviation `14.68`, stutter. -/
theorem scenario_values_amended :
    (analyze_pass [(0, 0), (1, 16.67), (2, 33.33), (3, 66.67)] 2).toOption.map
        (fun p => p.2) =
      some [⟨16.67, 100000/1667, 16.67, 14.67, 1⟩,
            ⟨16.66, 50000/833, -0.01, 0, 0⟩,
            ⟨33.34, 50000/1667, 16.68, 14.68, 1⟩] := by
  rw [pass_scenario_eq]
  rfl

/-- C8: on fewer than two samples the code crashes with a generic Python
exception rather than signalling an insufficient-data error: an empty
input file raises `IndexError` at `contents[0][0]`, a file with no data
row raises `IndexError` at `contents[1]`, and a single-sample trace
raises `ZeroDivisionError` at `smooth_samples * 100.0 / total_samples`
(`total_samples == 0`). -/
theorem insufficient_data_crashes :
    analyze_file ([] : List (List String)) 2 = .error .indexError ∧
      analyze_pass ([] : List (ℤ × ℚ)) 2 = .error .indexError ∧
      analyze_samples [(0, 0)] 2 = .error .zeroDivision := by
  refine ⟨by simp [analyze_file, read_rows], by simp [analyze_pass], ?_⟩
  simp [analyze_samples, analyze_pass, loop, mk_summary, init_st]

/-- C9 counterexample: a mislabeled header whose first cell does not even
contain the substring `Frame` (here `Index`) never reaches the header
test: the reader loop tries `int('Index')` and raises `ValueError`, so no
`InvalidHeader` report is produced (the run crashes; no output file is
written either, as the crash happens before the write). -/
theorem mislabeled_header_counterexample :
    analyze_file [["Index", " Time (ms)"], ["0", "0"], ["1", "16"]] 2 =
        .error .valueError ∧
      (Except.error PyError.valueError : Except PyError AnalyzeOutcome) ≠
        .ok .headerError := by
  constructor
  · decide
  · decide

/-- C9 amended: when every row of the file converts without an exception
and the first parsed row fails the line-120 header test without raising —
it is a numeric data row (the missing-header case: `int != 'Frame'` is
plain `True` in Python), or a string row whose first cell differs from
`Frame`, or a string row `Frame`, `c1`, … whose second cell differs from
` Time (ms)` — then `analyze` prints the header error and returns with no
augmented output file created (the output file is written only in the
`completed` outcome).  The remaining mismatch cases crash instead of
reporting: a first cell that neither contains the substring `Frame` nor
parses as an integer raises `ValueError` in the reader loop
(`mislabeled_header_counterexample`), and a lone-cell `Frame` row raises
`IndexError` inside the test itself. -/
theorem header_mismatch_reports_and_aborts
    (rows : List (List String)) (margin : ℚ) (first : Row) (rest : List Row)
    (hread : read_rows rows = .ok (first :: rest))
    (hbad : (∃ i ts, first = Row.data i ts) ∨
      (∃ c0 cs, first = Row.header (c0 :: cs) ∧ c0 ≠ "Frame") ∨
      (∃ c1 cs, first = Row.header ("Frame" :: c1 :: cs) ∧
        c1 ≠ " Time (ms)")) :
    analyze_file rows margin = .ok .headerError := by
  have hchk : header_check first = .ok false := by
    rcases hbad with ⟨i, ts, rfl⟩ | ⟨c0, cs, rfl, hc0⟩ | ⟨c1, cs, rfl, hc1⟩
    · rfl
    · simp [header_check, hc0]
    · simp [header_check, hc1]
  unfold analyze_file
  rw [hread]
  simp only [hchk]

/-- Witness for C9 (amended) on a file whose header reads `Frames`. -/
theorem header_mismatch_reports_and_aborts_witness :
    read_rows [["Frames", " Time (ms)"], ["0", "0"], ["1", "16"]] =
        .ok (.header ["Frames", " Time (ms)"] :: [.data 0 0, .data 1 16]) ∧
      "Frames" ≠ "Frame" ∧
      analyze_file [["Frames", " Time (ms)"], ["0", "0"], ["1", "16"]] 2 =
        .ok .headerError :=
  ⟨by decide, by decide,
    header_mismatch_reports_and_aborts
      [["Frames", " Time (ms)"], ["0", "0"], ["1", "16"]] 2
      (.header ["Frames", " Time (ms)"]) [.data 0 0, .data 1 16]
      (by decide)
      (Or.inr (Or.inl ⟨"Frames", [" Time (ms)"], rfl, by decide⟩))⟩

/-- C10: on a valid input (at least two samples, strictly increasing
timestamps, hence positive frame rates) whose pass completes, the
stutter-discounted average frame rate never exceeds the raw average, so
the reported divergence `(fps_avg_smooth / fps_avg - 1) * 100` is never
positive. -/
theorem smoothed_average_never_exceeds_raw
    (samples : List (ℤ × ℚ)) (margin : ℚ) (s : St) (recs : List FrameRec)
    (h2 : 2 ≤ samples.length)
    (hmono : List.Chain' (fun a b => a.2 < b.2) samples)
    (hok : analyze_pass samples margin = .ok (s, recs)) :
    s.fps_avg_smooth ≤ s.fps_avg ∧
      (s.fps_avg_smooth / s.fps_avg - 1) * 100 ≤ 0 := by
  cases samples with
  | nil => simp [analyze_pass] at hok
  | cons hd rest =>
    obtain ⟨i, ts0⟩ := hd
    simp only [analyze_pass] at hok
    obtain ⟨L1, -, L3, L4, -⟩ := loop_ok rest ts0 0 0 init_st s recs hok
    have hch : List.Chain' (· < ·) (ts0 :: rest.map Prod.snd) := by
      have hm2 := (List.chain'_map (Prod.snd : ℤ × ℚ → ℚ)).mpr hmono
      simpa using hm2
    have hpos : ∀ r ∈ recs, 0 < r.frame_rate :=
      loop_pos rest ts0 0 0 init_st s recs hch hok
    have hlen : 1 ≤ rest.length := by simpa using h2
    cases recs with
    | nil =>
      rw [← L1] at hlen
      simp at hlen
    | cons c cs =>
      simp only [init_st, List.map_cons] at L3 L4
      rw [fps_avg_fold_sum] at L3 L4
      simp only [List.length_map] at L3 L4
      norm_num at L3 L4
      have hcpos : 0 < c.frame_rate := hpos c (by simp)
      have hsum_le :
          smooth_val c + (cs.map smooth_val).sum ≤
            c.frame_rate + (cs.map FrameRec.frame_rate).sum := by
        have hc : smooth_val c ≤ c.frame_rate := smooth_val_le hcpos
        have hcs : (cs.map smooth_val).sum ≤ (cs.map FrameRec.frame_rate).sum :=
          List.sum_le_sum (fun r hr => smooth_val_le (hpos r (by simp [hr])))
        linarith
      have hsum_pos : 0 < c.frame_rate + (cs.map FrameRec.frame_rate).sum := by
        have h0 : 0 ≤ (cs.map FrameRec.frame_rate).sum := by
          apply List.sum_nonneg
          intro x hx
          obtain ⟨r, hr, rfl⟩ := List.mem_map.mp hx
          exact (hpos r (by simp [hr])).le
        linarith
      have hden : (0 : ℚ) < 1 + (cs.length : ℚ) := by positivity
      have havg_pos : 0 < s.fps_avg := by
        rw [L3]
        exact div_pos hsum_pos hden
      have h1 : s.fps_avg_smooth ≤ s.fps_avg := by
        rw [L3, L4]
        exact (div_le_div_iff_of_pos_right hden).mpr hsum_le
      refine ⟨h1, ?_⟩
      have hq : s.fps_avg_smooth / s.fps_avg ≤ 1 := (div_le_one havg_pos).mpr h1
      linarith

/-- Witness for C10 on the trace `[(0,0),(1,10),(2,25)]` with margin 2. -/
theorem smoothed_average_never_exceeds_raw_witness :
    2 ≤ ([((0 : ℤ), (0 : ℚ)), (1, 10), (2, 25)]).length ∧
      List.Chain' (fun a b : ℤ × ℚ => a.2 < b.2) [((0 : ℤ), (0 : ℚ)), (1, 10), (2, 25)] ∧
      ((⟨2, 0, 11, 200/3, 250/3, 0, 100⟩ : St).fps_avg_smooth ≤
          (⟨2, 0, 11, 200/3, 250/3, 0, 100⟩ : St).fps_avg ∧
        ((⟨2, 0, 11, 200/3, 250/3, 0, 100⟩ : St).fps_avg_smooth /
              (⟨2, 0, 11, 200/3, 250/3, 0, 100⟩ : St).fps_avg - 1) * 100 ≤ 0) :=
  ⟨by decide, by norm_num [List.chain'_cons],
    smoothed_average_never_exceeds_raw [(0, 0), (1, 10), (2, 25)] 2
      ⟨2, 0, 11, 200/3, 250/3, 0, 100⟩
      [⟨10, 100, 10, 8, 1⟩, ⟨15, 200/3, 5, 3, 1⟩]
      (by decide) (by norm_num [List.chain'_cons])
      (by norm_num [analyze_pass, loop, step, moving_average, binary_select1,
        init_st, fps_large_const, abs, max_def, min_def])⟩
